import Mathlib

/-!
# Verification of the eBoekhoudRobot event reconciliation engine

Shallow embedding of the reconciliation core of the repository:
`Container.synchronize_events` and its helpers (`src/container.py`), and
`EBoekhoudenEvents.compare_events` (`src/eboekhouden/events.py`).

Python dictionaries are embedded as Lean structures holding the fields the
reconciliation code reads.  Machine floats for hours are embedded as `Int`
(only equality/inequality of the field matters to the reconciliation logic
verified here).  Stateful accumulation over lists becomes `List.foldl` /
structural recursion; the `try/except` of `synchronize_events` becomes an
`Except` result whose error payload carries the statistics at the point the
exception was raised.
-/

namespace EBoekhoudRobot

/-- A database event (row produced by the database source). The reconciliation
code reads `event_id` via `db_event.get("event_id")` (absent key → `none`;
Python truthiness also rejects the empty string), and the remaining fields
only through the field-by-field comparison. -/
structure DbEvent where
  event_id : Option String
  user_name : String
  project : String
  activity : String
  description : String
  hours : Int
deriving DecidableEq, Repr

/-- A remote (e-boekhouden) event.  `description` is read with
`.get("description", "")`, so a missing description behaves as `""`; the
comparison fields are read with `.get`, hence `Option`; `is_invoiced` is read
with `.get("is_invoiced")` and used for its truthiness. -/
structure EbEvent where
  user_name : Option String
  project : Option String
  activity : Option String
  description : String
  hours : Option Int
  is_invoiced : Bool
deriving DecidableEq, Repr

/-- The fixed-shape statistics dictionary of `Container.synchronize_events`,
fields in the order of the Python literal (`container.py` lines 122-130). -/
structure Stats where
  would_add : Nat
  added : Nat
  would_update : Nat
  orphaned_events : Nat
  conflict_events : Nat
  base_data_conflicts : Nat
  verified_adds : Nat
deriving DecidableEq, Repr

/-- The all-zero statistics record `synchronize_events` starts from. -/
def zeroStats : Stats :=
  { would_add := 0, added := 0, would_update := 0, orphaned_events := 0,
    conflict_events := 0, base_data_conflicts := 0, verified_adds := 0 }

/-- Boolean test that `a` is a prefix of `b` (on character lists). -/
def listPrefixOf : List Char → List Char → Bool
  | [], _ => true
  | _ :: _, [] => false
  | a :: as, b :: bs => a = b && listPrefixOf as bs

/-- Boolean test that `sub` occurs as a contiguous sublist of the argument. -/
def containsChars (sub : List Char) : List Char → Bool
  | [] => listPrefixOf sub []
  | c :: cs => listPrefixOf sub (c :: cs) || containsChars sub cs

/-- Python's substring test `sub in hay` on strings. -/
def strContains (hay sub : String) : Bool :=
  containsChars sub.data hay.data

/-- The identifier marker embedded in remote descriptions:
`f"[event_id:{event_id}]"`. -/
def marker (event_id : String) : String :=
  "[event_id:" ++ event_id ++ "]"

/-- Reading `db_event.get("event_id")` followed by Python truthiness (`if not event_id:
continue`): a missing or empty identifier is rejected. -/
def truthyId (db_event : DbEvent) : Option String :=
  match db_event.event_id with
  | none => none
  | some s => if s = "" then none else some s

/-- The matching scan of `synchronize_events` (`container.py` lines 153-154):
`next((e for e in initial_eb_events if f"[event_id:{event_id}]" in
e.get("description", "")), None)`. -/
def findMatch (eb_events : List EbEvent) (event_id : String) : Option EbEvent :=
  eb_events.find? (fun e => strContains e.description (marker event_id))

/-- Modelled from the spec: `EBoekhoudenClient.get_event_differences` is called
by `Container._handle_event_update` but its definition is not among the
sources (only calls and test mocks exist).  Per the spec a claimed remote
event is "compared field-by-field (hours, project, activity, user name,
description, and any other schema-shared field)" against its matched database
event; the result maps each differing field name to the pair of values.  Here
we return the list of differing field names; a field the remote event lacks
(`none`) differs from any database value, matching the repository's own test
fixtures for missing fields. -/
def get_event_differences (db_event : DbEvent) (eb_event : EbEvent) : List String :=
  (if eb_event.hours = some db_event.hours then [] else ["hours"]) ++
  (if eb_event.project = some db_event.project then [] else ["project"]) ++
  (if eb_event.activity = some db_event.activity then [] else ["activity"]) ++
  (if eb_event.user_name = some db_event.user_name then [] else ["user_name"]) ++
  (if eb_event.description = db_event.description then [] else ["description"])

/-- Modelled from the spec: `EBoekhoudenClient.events_differ` is called by
`Container._handle_event_update` but its definition is not among the sources.
Per the spec ("If any field differs") it is true exactly when the
field-by-field comparison reports at least one difference. -/
def events_differ (db_event : DbEvent) (eb_event : EbEvent) : Bool :=
  !(get_event_differences db_event eb_event).isEmpty

/-- Embedding of `Container._check_base_data_conflicts` (`container.py` lines 63-70):
one conflict per base-data field ("project", "activity") that is reported as
differing and is not `None` on the remote event. -/
def check_base_data_conflicts (differences : List String) (eb_event : EbEvent) : Nat :=
  (if "project" ∈ differences ∧ eb_event.project ≠ none then 1 else 0) +
  (if "activity" ∈ differences ∧ eb_event.activity ≠ none then 1 else 0)

/-- Embedding of `Container._handle_event_update` (`container.py` lines 72-84): on a
matched pair, if the events differ then an invoiced remote event yields one
`conflict_events`, otherwise one `would_update` plus the base-data conflict
count of the differences. -/
def handle_event_update (db_event : DbEvent) (eb_event : EbEvent) (stats : Stats) : Stats :=
  if events_differ db_event eb_event then
    if eb_event.is_invoiced then
      { stats with conflict_events := stats.conflict_events + 1 }
    else
      let differences := get_event_differences db_event eb_event
      { stats with
          would_update := stats.would_update + 1,
          base_data_conflicts :=
            stats.base_data_conflicts + check_base_data_conflicts differences eb_event }
  else stats

/-- Embedding of `Container._find_orphaned_events` (`container.py` lines 86-94): count the
remote events whose description lacks the `[event_id:` marker. -/
def find_orphaned_events (eb_events : List EbEvent) : Nat :=
  eb_events.foldl (fun n e => if strContains e.description "[event_id:" then n else n + 1) 0

/-- One iteration of the classification loop of `synchronize_events`
(`container.py` lines 146-164): skip a database event with a falsy
`event_id`; otherwise either record it as an addition candidate (no remote
description carries its marker) or run `_handle_event_update` on the first
matching remote event. -/
def classifyStep (eb_events : List EbEvent) (acc : List DbEvent × Stats)
    (db_event : DbEvent) : List DbEvent × Stats :=
  match truthyId db_event with
  | none => acc
  | some event_id =>
    match findMatch eb_events event_id with
    | none => (acc.1 ++ [db_event], { acc.2 with would_add := acc.2.would_add + 1 })
    | some eb_event => (acc.1, handle_event_update db_event eb_event acc.2)

/-- The two external capabilities `synchronize_events` uses in its apply and
verification phases, as pure functions (the happy-path model: no call
raises). -/
structure Client where
  add_hours_direct : DbEvent → Bool
  download_hours_xls : Int → List EbEvent

/-- Result of a run of `synchronize_events`: the statistics dictionary it
returns, plus two observation traces — the events passed to
`client.add_hours_direct`, in call order, and the years passed to
`client.download_hours_xls`.  The traces record which external calls the code
makes; they are not part of the Python return value. -/
structure SyncResult where
  stats : Stats
  applyCalls : List DbEvent
  fetchCalls : List Int
deriving DecidableEq, Repr

/-- Embedding of `Container.synchronize_events` (`container.py` lines 105-213), happy path
(no exception is raised; the `Except`-based model below covers the
`try/except`).  Step 3 classifies every database event; step 4 (only when
`not dry_run and events_to_add`) applies each addition candidate in order,
counting `added` on success; step 5 re-downloads the year's events and, when
the fresh list is non-empty, counts `verified_adds` for each candidate whose
marker (`event["event_id"]`, necessarily truthy for a candidate) appears in
some fresh description; step 6 overwrites `orphaned_events` with the orphan
count of the initially provided remote list. -/
def synchronize_events (client : Client) (db_events : List DbEvent)
    (eb_events : List EbEvent) (year : Int) (dry_run : Bool) : SyncResult :=
  let p := db_events.foldl (classifyStep eb_events) ([], zeroStats)
  let events_to_add := p.1
  let stats1 := p.2
  let r :=
    if dry_run = false ∧ events_to_add ≠ [] then
      let added := events_to_add.foldl
        (fun n ev => if client.add_hours_direct ev then n + 1 else n) 0
      let final_eb_events := client.download_hours_xls year
      let verified :=
        if final_eb_events = [] then 0
        else events_to_add.foldl
          (fun n ev =>
            if final_eb_events.any
                (fun e => strContains e.description (marker ((truthyId ev).getD ""))) then
              n + 1
            else n) 0
      ({ stats1 with added := added, verified_adds := verified }, events_to_add, [year])
    else (stats1, ([] : List DbEvent), ([] : List Int))
  { stats := { r.1 with orphaned_events := find_orphaned_events eb_events },
    applyCalls := r.2.1,
    fetchCalls := r.2.2 }

/-- The remote event `synchronize_events` pairs a database event with: the
first remote event whose description contains the event's marker, provided the
event has a truthy identifier. -/
def matchedEb (eb_events : List EbEvent) (db_event : DbEvent) : Option EbEvent :=
  (truthyId db_event).bind (findMatch eb_events)

/-- A database event is an addition candidate when it has a truthy identifier
and no remote description carries its marker. -/
def isAddCandidate (eb_events : List EbEvent) (db_event : DbEvent) : Bool :=
  match truthyId db_event with
  | none => false
  | some event_id => (findMatch eb_events event_id).isNone

/-- The addition candidates of a run, in database-list order. -/
def addCandidates (eb_events : List EbEvent) (db_events : List DbEvent) : List DbEvent :=
  db_events.filter (isAddCandidate eb_events)

/-- A database event contributes one `conflict_events`: it is matched, the
pair differs, and the remote event is invoiced. -/
def conflictFlag (eb_events : List EbEvent) (db_event : DbEvent) : Bool :=
  match matchedEb eb_events db_event with
  | none => false
  | some eb_event => events_differ db_event eb_event && eb_event.is_invoiced

/-- A database event contributes one `would_update`: it is matched, the pair
differs, and the remote event is not invoiced. -/
def updateFlag (eb_events : List EbEvent) (db_event : DbEvent) : Bool :=
  match matchedEb eb_events db_event with
  | none => false
  | some eb_event => events_differ db_event eb_event && !eb_event.is_invoiced

/-- The `base_data_conflicts` contribution of a database event: the base-data
conflict count of its differences when it is matched to a differing,
non-invoiced remote event, and `0` otherwise. -/
def baseContribution (eb_events : List EbEvent) (db_event : DbEvent) : Nat :=
  match matchedEb eb_events db_event with
  | none => 0
  | some eb_event =>
    if events_differ db_event eb_event && !eb_event.is_invoiced then
      check_base_data_conflicts (get_event_differences db_event eb_event) eb_event
    else 0

/-- A candidate's marker appears in the freshly downloaded list
(`container.py` line 186). -/
def verifyFlag (client : Client) (year : Int) (ev : DbEvent) : Bool :=
  (client.download_hours_xls year).any
    (fun e => strContains e.description (marker ((truthyId ev).getD "")))

/-- The external client calls of `synchronize_events` as fallible operations:
each either returns a value or raises a Python exception, embedded as
`Except.error` carrying the exception message.  `login_ok = false` embeds
`get_eboekhouden_client` raising `RuntimeError` on a failed login. -/
structure ClientE where
  login_ok : Bool
  events_differ : DbEvent → EbEvent → Except String Bool
  get_event_differences : DbEvent → EbEvent → Except String (List String)
  add_hours_direct : DbEvent → Except String Bool
  download_hours_xls : Int → Except String (String × List EbEvent)

/-- Re-raise a client exception, carrying the statistics dictionary as it
stands at the raise point (the Python `stats` dict is mutated in place, so the
`except` block at `container.py` line 201 sees its current value). -/
def liftE {α : Type} (stats : Stats) : Except String α → Except Stats α
  | .ok a => .ok a
  | .error _ => .error stats

/-- Fallible variant of `_handle_event_update`: `events_differ` and
`get_event_differences` are client calls and may raise.  In the invoiced
branch the conflict counter is incremented (line 76) before the logging call
to `get_event_differences` (line 78), so an exception there carries the
already-incremented statistics. -/
def handle_event_updateE (client : ClientE) (db_event : DbEvent) (eb_event : EbEvent)
    (stats : Stats) : Except Stats Stats := do
  let differs ← liftE stats (client.events_differ db_event eb_event)
  if differs then
    if eb_event.is_invoiced then
      let stats1 := { stats with conflict_events := stats.conflict_events + 1 }
      let _ ← liftE stats1 (client.get_event_differences db_event eb_event)
      pure stats1
    else
      let differences ← liftE stats (client.get_event_differences db_event eb_event)
      pure { stats with
              would_update := stats.would_update + 1,
              base_data_conflicts :=
                stats.base_data_conflicts + check_base_data_conflicts differences eb_event }
  else
    pure stats

/-- Fallible variant of the classification loop (`container.py` lines
146-164). -/
def classifyE (client : ClientE) (eb_events : List EbEvent) :
    List DbEvent → List DbEvent → Stats → Except Stats (List DbEvent × Stats)
  | [], events_to_add, stats => pure (events_to_add, stats)
  | db_event :: rest, events_to_add, stats =>
    match truthyId db_event with
    | none => classifyE client eb_events rest events_to_add stats
    | some event_id =>
      match findMatch eb_events event_id with
      | none =>
        classifyE client eb_events rest (events_to_add ++ [db_event])
          { stats with would_add := stats.would_add + 1 }
      | some eb_event => do
        let stats1 ← handle_event_updateE client db_event eb_event stats
        classifyE client eb_events rest events_to_add stats1

/-- Fallible variant of the addition loop (`container.py` lines 171-177):
each `add_hours_direct` call may raise; a `False` return only skips the
`added` increment. -/
def applyAddsE (client : ClientE) :
    List DbEvent → Stats → Except Stats Stats
  | [], stats => pure stats
  | ev :: rest, stats => do
    let ok ← liftE stats (client.add_hours_direct ev)
    applyAddsE client rest
      (if ok then { stats with added := stats.added + 1 } else stats)

/-- The verification count of `container.py` lines 184-190 (pure: it only
scans the already-downloaded list). -/
def verifyAddsCount (final_eb_events : List EbEvent) (events_to_add : List DbEvent) : Nat :=
  events_to_add.countP (fun ev =>
    final_eb_events.any
      (fun e => strContains e.description (marker ((truthyId ev).getD ""))))

/-- The body of the `try` block of `synchronize_events` (`container.py` lines
132-199), fallible: an error carries the statistics at the raise point. -/
def syncBodyE (client : ClientE) (db_events : List DbEvent) (eb_events : List EbEvent)
    (year : Int) (dry_run : Bool) : Except Stats Stats :=
  if client.login_ok = false then .error zeroStats
  else do
    let p ← classifyE client eb_events db_events [] zeroStats
    let events_to_add := p.1
    let stats1 := p.2
    let stats2 ←
      if dry_run = false ∧ events_to_add ≠ [] then do
        let statsA ← applyAddsE client events_to_add stats1
        let dl ← liftE statsA (client.download_hours_xls year)
        let final_eb_events := dl.2
        if final_eb_events ≠ [] then
          pure { statsA with
                  verified_adds := statsA.verified_adds +
                    verifyAddsCount final_eb_events events_to_add }
        else
          pure statsA
      else
        pure stats1
    pure { stats2 with orphaned_events := find_orphaned_events eb_events }

/-- The `except` block of `synchronize_events` (`container.py` lines
201-211): reset every counter except `orphaned_events` to zero. -/
def resetOnError (stats : Stats) : Stats :=
  { stats with
      would_add := 0, added := 0, would_update := 0,
      base_data_conflicts := 0, conflict_events := 0, verified_adds := 0 }

/-- Embedding of `Container.synchronize_events` with its `try/except`: an
exception anywhere in the body is caught and the statistics at the raise
point are returned with every counter except `orphaned_events` reset. -/
def synchronize_eventsE (client : ClientE) (db_events : List DbEvent)
    (eb_events : List EbEvent) (year : Int) (dry_run : Bool) : Stats :=
  match syncBodyE client db_events eb_events year dry_run with
  | .ok stats => stats
  | .error statsAtRaise => resetOnError statsAtRaise

/-- A database event as read by `EBoekhoudenEvents.compare_events`
(`events.py` lines 12-65): the loop itself reads only `event_id`; the other
fields are consulted only inside `needs_update` / `events_match`, which the
embedding below abstracts as predicate parameters (they are sibling methods
dispatched through `self`, and the claiming behaviour under verification does
not depend on them). -/
structure CmpDbEvent where
  event_id : String
  project : String
  activity : String
  hours : Int
  start_date : String
  last_modified : String
deriving DecidableEq, Repr

/-- A remote event as produced by `parse_hours_xls` and read by
`compare_events`: the loop reads `id` (the claiming key) and the optional
`event_id`; the other fields feed only the abstracted predicates. -/
structure CmpEbEvent where
  id : String
  event_id : Option String
  project : String
  activity : String
  hours : Int
  description : String
  date : String
  last_modified : String
deriving DecidableEq, Repr

/-- Inner loop of `compare_events` (`events.py` lines 36-55): scan the remote
events in order, skipping any whose `id` is already in `processed_eb_events`;
the first remaining one matching by `event_id` (returned flag `true`) or by
content (`events_match`, flag `false`) is the match, and the scan stops
(`break`). -/
def scanForMatch (em : CmpDbEvent → CmpEbEvent → Bool) (processed : List String)
    (db_event : CmpDbEvent) : List CmpEbEvent → Option (CmpEbEvent × Bool)
  | [] => none
  | eb_event :: rest =>
    if eb_event.id ∈ processed then scanForMatch em processed db_event rest
    else if eb_event.event_id = some db_event.event_id then some (eb_event, true)
    else if em db_event eb_event then some (eb_event, false)
    else scanForMatch em processed db_event rest

/-- Outer loop of `compare_events`, with accumulators for the claimed-id set
(`processed_eb_events`, embedded as a list used only through membership), the
three result lists, and a ghost trace `matchTrace` recording which remote event
each database event was paired with.  Returns
`(processed, events_to_add, events_to_update, matchTrace)`. -/
def compare_eventsAux (nu em : CmpDbEvent → CmpEbEvent → Bool)
    (eb_events : List CmpEbEvent) :
    List CmpDbEvent → List String → List CmpDbEvent →
    List (CmpDbEvent × CmpEbEvent) → List (CmpDbEvent × CmpEbEvent) →
    List String × List CmpDbEvent × List (CmpDbEvent × CmpEbEvent) ×
      List (CmpDbEvent × CmpEbEvent)
  | [], processed, events_to_add, events_to_update, matchTrace =>
    (processed, events_to_add, events_to_update, matchTrace)
  | db_event :: rest, processed, events_to_add, events_to_update, matchTrace =>
    match scanForMatch em processed db_event eb_events with
    | none =>
      compare_eventsAux nu em eb_events rest processed (events_to_add ++ [db_event])
        events_to_update matchTrace
    | some (eb_event, byId) =>
      compare_eventsAux nu em eb_events rest (processed ++ [eb_event.id]) events_to_add
        (if byId && nu db_event eb_event then events_to_update ++ [(db_event, eb_event)]
         else events_to_update)
        (matchTrace ++ [(db_event, eb_event)])

/-- Result of `compare_events`: the three returned lists, plus the final
claimed-id set and the ghost match trace. -/
structure CmpResult where
  events_to_add : List CmpDbEvent
  events_to_update : List (CmpDbEvent × CmpEbEvent)
  orphaned_events : List CmpEbEvent
  matchTrace : List (CmpDbEvent × CmpEbEvent)
  processed : List String
deriving Repr

/-- Embedding of `EBoekhoudenEvents.compare_events` (`events.py` lines
12-65), with `needs_update` (`nu`) and `events_match` (`em`) abstracted as
predicate parameters.  The second pass collects the remote events whose `id`
was never claimed. -/
def compare_events (nu em : CmpDbEvent → CmpEbEvent → Bool)
    (db_events : List CmpDbEvent) (eb_events : List CmpEbEvent) : CmpResult :=
  let r := compare_eventsAux nu em eb_events db_events [] [] [] []
  { events_to_add := r.2.1,
    events_to_update := r.2.2.1,
    orphaned_events := eb_events.filter (fun e => decide (e.id ∉ r.1)),
    matchTrace := r.2.2.2,
    processed := r.1 }

/-- A client whose apply capability always fails and whose verification
download is empty (instantiates dry-run scenarios, where it is never
consulted). -/
def trivClient : Client :=
  { add_hours_direct := fun _ => false, download_hours_xls := fun _ => [] }

/-- The database event of the spec scenario db=[{id:"e1", hours:8,
project:"A"}]. -/
def dbScen : DbEvent :=
  { event_id := some "e1", user_name := "u", project := "A", activity := "Dev",
    description := "d", hours := 8 }

/-- The remote event of the spec scenario remote=[{description:"[event_id:e1]",
hours:4, project:"B", invoiced:true}]. -/
def ebScen : EbEvent :=
  { user_name := some "u", project := some "B", activity := some "Dev",
    description := "[event_id:e1]", hours := some 4, is_invoiced := true }

/-- A second database event, identical to `dbScen` except for its
identifier. -/
def dbB : DbEvent :=
  { dbScen with event_id := some "e2" }

/-- A remote event whose description embeds the markers of both `dbScen` and
`dbB`. -/
def ebShared : EbEvent :=
  { ebScen with description := "[event_id:e1] [event_id:e2]" }

/-- A database event whose matching remote event `ebId` is field-identical. -/
def dbId : DbEvent :=
  { event_id := some "e1", user_name := "u", project := "A", activity := "Dev",
    description := "[event_id:e1] d", hours := 8 }

/-- The remote event field-identical to `dbId`, carrying its marker. -/
def ebId : EbEvent :=
  { user_name := some "u", project := some "A", activity := some "Dev",
    description := "[event_id:e1] d", hours := some 8, is_invoiced := false }

/-- A client whose apply capability always succeeds and whose verification
download returns the single synced remote event `ebId`. -/
def witClient : Client :=
  { add_hours_direct := fun _ => true, download_hours_xls := fun _ => [ebId] }

/-- A database event with a falsy (absent) `event_id`. -/
def dbBad : DbEvent :=
  { event_id := none, user_name := "u", project := "A", activity := "Dev",
    description := "d", hours := 8 }

/-- A remote event without the identifier marker (an orphan). -/
def ebOrphan : EbEvent :=
  { user_name := some "u", project := some "C", activity := some "M",
    description := "No event ID here", hours := some 2, is_invoiced := false }

/-- A fallible client whose comparison calls raise, as in the repository test
`test_process_events_error_handling` (`events_differ.side_effect =
Exception("Test error")`). -/
def raisingClient : ClientE :=
  { login_ok := true,
    events_differ := fun _ _ => .error "Test error",
    get_event_differences := fun _ _ => .error "Test error",
    add_hours_direct := fun _ => .ok true,
    download_hours_xls := fun _ => .ok ("", []) }


/-- Characterization of the classification loop (`container.py` lines
146-164): folding `classifyStep` over the database events extends the
candidate list by the addition candidates and adds, to each counter, its
closed-form count over the database list. -/
theorem classify_foldl_eq (eb_events : List EbEvent) (db_events : List DbEvent)
    (l : List DbEvent) (s : Stats) :
    db_events.foldl (classifyStep eb_events) (l, s) =
      (l ++ addCandidates eb_events db_events,
       { would_add := s.would_add + db_events.countP (isAddCandidate eb_events),
         added := s.added,
         would_update := s.would_update + db_events.countP (updateFlag eb_events),
         orphaned_events := s.orphaned_events,
         conflict_events := s.conflict_events + db_events.countP (conflictFlag eb_events),
         base_data_conflicts :=
           s.base_data_conflicts + (db_events.map (baseContribution eb_events)).sum,
         verified_adds := s.verified_adds }) := by
  induction db_events generalizing l s with
  | nil =>
    simp [addCandidates]
  | cons d ds ih =>
    rw [List.foldl_cons]
    cases h1 : truthyId d with
    | none =>
      simp only [classifyStep, h1, ih]
      simp [addCandidates, isAddCandidate, updateFlag, conflictFlag, baseContribution,
        matchedEb, h1, List.countP_cons, List.filter_cons]
    | some event_id =>
      cases h2 : findMatch eb_events event_id with
      | none =>
        simp only [classifyStep, h1, h2, ih]
        simp [addCandidates, isAddCandidate, updateFlag, conflictFlag, baseContribution,
          matchedEb, h1, h2, List.countP_cons, List.filter_cons, Stats.mk.injEq]
        omega
      | some eb_event =>
        simp only [classifyStep, h1, h2, ih, handle_event_update]
        cases hd : events_differ d eb_event with
        | false =>
          simp [addCandidates, isAddCandidate, updateFlag, conflictFlag, baseContribution,
            matchedEb, h1, h2, hd, List.countP_cons, List.filter_cons]
        | true =>
          cases hi : eb_event.is_invoiced with
          | false =>
            simp [addCandidates, isAddCandidate, updateFlag, conflictFlag, baseContribution,
              matchedEb, h1, h2, hd, hi, List.countP_cons, List.filter_cons, Stats.mk.injEq]
            omega
          | true =>
            simp [addCandidates, isAddCandidate, updateFlag, conflictFlag, baseContribution,
              matchedEb, h1, h2, hd, hi, List.countP_cons, List.filter_cons, Stats.mk.injEq]
            omega

/-- The counting loops of the apply/verify phases are `countP` in disguise. -/
theorem count_foldl_eq {α : Type} (p : α → Bool) (l : List α) (n : Nat) :
    l.foldl (fun n a => if p a then n + 1 else n) n = n + l.countP p := by
  induction l generalizing n with
  | nil => simp
  | cons a l ih =>
    cases h : p a <;> simp [List.countP_cons, h, ih] <;> omega

/-- The helper `_find_orphaned_events` counts the remote events whose description lacks
the `[event_id:` marker. -/
theorem find_orphaned_events_eq (eb_events : List EbEvent) :
    find_orphaned_events eb_events =
      eb_events.countP (fun e => !strContains e.description "[event_id:") := by
  unfold find_orphaned_events
  suffices h : ∀ n, eb_events.foldl
      (fun n e => if strContains e.description "[event_id:" then n else n + 1) n =
      n + eb_events.countP (fun e => !strContains e.description "[event_id:") by
    simpa using h 0
  induction eb_events with
  | nil => simp
  | cons e l ih =>
    intro n
    cases h : strContains e.description "[event_id:" <;>
      simp [List.countP_cons, h, ih] <;> omega

/-- Closed form of a full `synchronize_events` run: every statistics field and
both call traces, as counts over the input lists. -/
theorem synchronize_events_eq (client : Client) (db_events : List DbEvent)
    (eb_events : List EbEvent) (year : Int) (dry_run : Bool) :
    synchronize_events client db_events eb_events year dry_run =
      { stats :=
          { would_add := db_events.countP (isAddCandidate eb_events),
            added :=
              if dry_run = false ∧ addCandidates eb_events db_events ≠ [] then
                (addCandidates eb_events db_events).countP client.add_hours_direct
              else 0,
            would_update := db_events.countP (updateFlag eb_events),
            orphaned_events :=
              eb_events.countP (fun e => !strContains e.description "[event_id:"),
            conflict_events := db_events.countP (conflictFlag eb_events),
            base_data_conflicts := (db_events.map (baseContribution eb_events)).sum,
            verified_adds :=
              if dry_run = false ∧ addCandidates eb_events db_events ≠ [] then
                (addCandidates eb_events db_events).countP (verifyFlag client year)
              else 0 },
        applyCalls :=
          if dry_run = false ∧ addCandidates eb_events db_events ≠ [] then
            addCandidates eb_events db_events
          else [],
        fetchCalls :=
          if dry_run = false ∧ addCandidates eb_events db_events ≠ [] then [year]
          else [] } := by
  unfold synchronize_events
  rw [classify_foldl_eq]
  by_cases hc : dry_run = false ∧ addCandidates eb_events db_events ≠ []
  · simp only [hc, if_pos hc, List.nil_append]
    have hadd : (addCandidates eb_events db_events).foldl
        (fun n ev => if client.add_hours_direct ev then n + 1 else n) 0 =
        (addCandidates eb_events db_events).countP client.add_hours_direct := by
      rw [count_foldl_eq, Nat.zero_add]
    have hver : (if client.download_hours_xls year = [] then 0
        else (addCandidates eb_events db_events).foldl
          (fun n ev =>
            if (client.download_hours_xls year).any
                (fun e => strContains e.description (marker ((truthyId ev).getD ""))) then
              n + 1
            else n) 0) =
        (addCandidates eb_events db_events).countP (verifyFlag client year) := by
      by_cases hf : client.download_hours_xls year = []
      · rw [if_pos hf]
        have : (addCandidates eb_events db_events).countP (verifyFlag client year) = 0 := by
          rw [List.countP_eq_zero]
          intro ev _
          simp [verifyFlag, hf]
        omega
      · rw [if_neg hf, count_foldl_eq, Nat.zero_add]
        rfl
    rw [find_orphaned_events_eq] at *
    simp only [zeroStats] at *
    simp_all [SyncResult.mk.injEq, Stats.mk.injEq]
  · simp only [if_neg hc]
    rw [find_orphaned_events_eq]
    simp [zeroStats, hc, Stats.mk.injEq]

/-- A matched remote event found by the inner scan was not yet claimed. -/
theorem scanForMatch_not_processed (em : CmpDbEvent → CmpEbEvent → Bool)
    (processed : List String) (db_event : CmpDbEvent) (eb_events : List CmpEbEvent)
    (eb_event : CmpEbEvent) (b : Bool)
    (h : scanForMatch em processed db_event eb_events = some (eb_event, b)) :
    eb_event.id ∉ processed := by
  induction eb_events with
  | nil => exact absurd h (by simp [scanForMatch])
  | cons e rest ih =>
    unfold scanForMatch at h
    by_cases h1 : e.id ∈ processed
    · rw [if_pos h1] at h
      exact ih h
    · rw [if_neg h1] at h
      by_cases h2 : e.event_id = some db_event.event_id
      · rw [if_pos h2] at h
        simp only [Option.some.injEq, Prod.mk.injEq] at h
        exact h.1 ▸ h1
      · rw [if_neg h2] at h
        by_cases h3 : em db_event e = true
        · rw [if_pos h3] at h
          simp only [Option.some.injEq, Prod.mk.injEq] at h
          exact h.1 ▸ h1
        · rw [if_neg h3] at h
          exact ih h

/-- Invariant of the outer loop: if the ids claimed so far are distinct and
all recorded in `processed`, they stay so. -/
theorem compare_eventsAux_nodup (nu em : CmpDbEvent → CmpEbEvent → Bool)
    (eb_events : List CmpEbEvent) :
    ∀ (db_events : List CmpDbEvent) (processed : List String)
      (events_to_add : List CmpDbEvent)
      (events_to_update matchTrace : List (CmpDbEvent × CmpEbEvent)),
      (matchTrace.map (fun p => p.2.id)).Nodup →
      (∀ i ∈ matchTrace.map (fun p => p.2.id), i ∈ processed) →
      ((compare_eventsAux nu em eb_events db_events processed events_to_add
          events_to_update matchTrace).2.2.2.map (fun p => p.2.id)).Nodup := by
  intro db_events
  induction db_events with
  | nil =>
    intro processed _ _ matchTrace h1 _
    exact h1
  | cons d rest ih =>
    intro processed events_to_add events_to_update matchTrace h1 h2
    unfold compare_eventsAux
    cases hscan : scanForMatch em processed d eb_events with
    | none =>
      exact ih processed (events_to_add ++ [d]) events_to_update matchTrace h1 h2
    | some p =>
      obtain ⟨eb, byId⟩ := p
      have hnp : eb.id ∉ processed :=
        scanForMatch_not_processed em processed d eb_events eb byId hscan
      apply ih (processed ++ [eb.id]) events_to_add _ (matchTrace ++ [(d, eb)])
      · rw [List.map_append, List.nodup_append]
        refine ⟨h1, List.nodup_singleton _, ?_⟩
        intro i hi hj
        simp only [List.map_cons, List.map_nil, List.mem_singleton] at hj
        subst hj
        exact hnp (h2 _ hi)
      · intro i hi
        rw [List.map_append, List.mem_append] at hi
        rcases hi with hi | hi
        · exact List.mem_append_left _ (h2 i hi)
        · simp only [List.map_cons, List.map_nil, List.mem_singleton] at hi
          subst hi
          exact List.mem_append_right _ (List.mem_singleton_self _)

/-- The matching scan fails exactly when no remote description contains the
marker. -/
theorem findMatch_isNone_eq (eb_events : List EbEvent) (event_id : String) :
    (findMatch eb_events event_id).isNone =
      !eb_events.any (fun e => strContains e.description (marker event_id)) := by
  unfold findMatch
  induction eb_events with
  | nil => rfl
  | cons e rest ih =>
    cases h : strContains e.description (marker event_id) with
    | true => simp [List.find?_cons_of_pos, h]
    | false =>
      rw [List.find?_cons_of_neg _ (by simp [h]), List.any_cons, h, ih]
      rfl

/-- C1 (amended): in `synchronize_events`, each matched pair whose events
differ and whose remote event is invoiced contributes exactly one
`conflict_events` and nothing to `base_data_conflicts`;
`base_data_conflicts` accumulates only over matched, differing, non-invoiced
pairs, one per differing base-data field that is non-null remotely
(`conflictFlag` and `baseContribution` encode exactly these two branch
conditions of `_handle_event_update`). -/
theorem conflict_and_base_data_closed_form (client : Client)
    (db_events : List DbEvent) (eb_events : List EbEvent) (year : Int)
    (dry_run : Bool) :
    (synchronize_events client db_events eb_events year dry_run).stats.conflict_events =
      db_events.countP (conflictFlag eb_events) ∧
    (synchronize_events client db_events eb_events year dry_run).stats.base_data_conflicts =
      (db_events.map (baseContribution eb_events)).sum := by
  simp [synchronize_events_eq]

/-- C1 counterexample: on the spec scenario db=[{id:"e1", hours:8,
project:"A"}], remote=[{description:"[event_id:e1]", hours:4, project:"B",
invoiced:true}], the code yields `conflict_events = 1`, `would_update = 0`
and `base_data_conflicts = 0` — not the claimed `base_data_conflicts = 1`:
the invoiced branch of `_handle_event_update` never touches
`base_data_conflicts`. -/
theorem scenario_invoiced_base_data_counterexample :
    (synchronize_events trivClient [dbScen] [ebScen] 2024 true).stats.conflict_events = 1 ∧
    (synchronize_events trivClient [dbScen] [ebScen] 2024 true).stats.would_update = 0 ∧
    (synchronize_events trivClient [dbScen] [ebScen] 2024 true).stats.base_data_conflicts = 0 ∧
    ¬ (synchronize_events trivClient [dbScen] [ebScen] 2024 true).stats.base_data_conflicts = 1 := by
  decide

/-- C2, evaluated at the failing input: with the comparison call raising (as
in the repository test `test_process_events_error_handling`), the remote list
contains one orphan (`find_orphaned_events = 1`) but `synchronize_events`
returns the all-zero statistics — `orphaned_events` is computed only at step
6, after classification, so the claimed retention of the orphan count does
not happen. -/
theorem classification_error_orphans_lost :
    synchronize_eventsE raisingClient [dbId] [ebId, ebOrphan] 2024 true = zeroStats ∧
    find_orphaned_events [ebId, ebOrphan] = 1 := by
  decide

/-- C3 counterexample: `synchronize_events` performs no claiming — a single
remote event whose description embeds the markers of two distinct database
events is paired with both of them (each via `matchedEb`, the engine's
matching scan), and both pairs are counted: one invoiced remote event yields
`conflict_events = 2`. -/
theorem shared_marker_double_match_counterexample :
    dbScen ≠ dbB ∧
    matchedEb [ebShared] dbScen = some ebShared ∧
    matchedEb [ebShared] dbB = some ebShared ∧
    (synchronize_events trivClient [dbScen, dbB] [ebShared] 2024 true).stats.conflict_events = 2 := by
  decide

/-- C3 (amended): the first-match-wins claiming behaviour lives in
`EBoekhoudenEvents.compare_events`, not in `synchronize_events`: there, once
a remote event has been claimed its `id` enters `processed_eb_events` and it
can never match a second database event — the trace of claimed remote events
of a run carries pairwise distinct remote ids, for every pair of matching
predicates and any input lists. -/
theorem compare_events_claims_each_remote_once
    (nu em : CmpDbEvent → CmpEbEvent → Bool)
    (db_events : List CmpDbEvent) (eb_events : List CmpEbEvent) :
    ((compare_events nu em db_events eb_events).matchTrace.map
      (fun p => p.2.id)).Nodup := by
  exact compare_eventsAux_nodup nu em eb_events db_events [] [] [] []
    List.nodup_nil (by intro i hi; simp at hi)

/-- C4: `would_add` equals the number of database events carrying a truthy
identifier whose marker occurs as a substring of no remote description. -/
theorem would_add_counts_unmatched_db_events (client : Client)
    (db_events : List DbEvent) (eb_events : List EbEvent) (year : Int)
    (dry_run : Bool) :
    (synchronize_events client db_events eb_events year dry_run).stats.would_add =
      db_events.countP (fun db_event =>
        match truthyId db_event with
        | none => false
        | some event_id =>
          !eb_events.any (fun e => strContains e.description (marker event_id))) := by
  have hp : isAddCandidate eb_events = fun db_event =>
      match truthyId db_event with
      | none => false
      | some event_id =>
        !eb_events.any (fun e => strContains e.description (marker event_id)) := by
    funext db_event
    unfold isAddCandidate
    cases truthyId db_event with
    | none => rfl
    | some event_id => exact findMatch_isNone_eq eb_events event_id
  simp only [synchronize_events_eq]
  show db_events.countP (isAddCandidate eb_events) = _
  rw [hp]

/-- C5: `orphaned_events` equals the number of remote events whose
description does not contain `[event_id:`, and its value does not depend on
the dry-run flag. -/
theorem orphaned_events_counts_markerless_remote_events (client : Client)
    (db_events : List DbEvent) (eb_events : List EbEvent) (year : Int)
    (dry_run : Bool) :
    (synchronize_events client db_events eb_events year dry_run).stats.orphaned_events =
      eb_events.countP (fun e => !strContains e.description "[event_id:") ∧
    (synchronize_events client db_events eb_events year true).stats.orphaned_events =
      (synchronize_events client db_events eb_events year false).stats.orphaned_events := by
  simp [synchronize_events_eq]

/-- C6: on a matched pair whose events differ and whose remote event is
invoiced, `_handle_event_update` increments `conflict_events` by one and
leaves `would_update` unchanged — the invoiced branch excludes the update
branch for that pair. -/
theorem invoiced_conflict_excludes_update (db_event : DbEvent)
    (eb_event : EbEvent) (stats : Stats)
    (hdiff : events_differ db_event eb_event = true)
    (hinv : eb_event.is_invoiced = true) :
    (handle_event_update db_event eb_event stats).conflict_events =
      stats.conflict_events + 1 ∧
    (handle_event_update db_event eb_event stats).would_update =
      stats.would_update := by
  unfold handle_event_update
  rw [hdiff, hinv]
  exact ⟨rfl, rfl⟩

/-- Witness for C6 at the spec scenario pair. -/
theorem invoiced_conflict_excludes_update_witness :
    events_differ dbScen ebScen = true ∧ ebScen.is_invoiced = true ∧
    ((handle_event_update dbScen ebScen zeroStats).conflict_events =
       zeroStats.conflict_events + 1 ∧
     (handle_event_update dbScen ebScen zeroStats).would_update =
       zeroStats.would_update) :=
  ⟨by decide, by decide,
   invoiced_conflict_excludes_update dbScen ebScen zeroStats (by decide) (by decide)⟩

/-- C7: with `dry_run = false` and at least one addition candidate, the
engine downloads the year's remote list exactly once and `verified_adds`
counts the candidates whose marker appears in some description of that fresh
list. -/
theorem apply_mode_refetches_and_verifies (client : Client)
    (db_events : List DbEvent) (eb_events : List EbEvent) (year : Int)
    (h : addCandidates eb_events db_events ≠ []) :
    (synchronize_events client db_events eb_events year false).fetchCalls = [year] ∧
    (synchronize_events client db_events eb_events year false).stats.verified_adds =
      (addCandidates eb_events db_events).countP (verifyFlag client year) := by
  simp [synchronize_events_eq, h]

/-- Witness for C7: one candidate, successfully verified against the fresh
download. -/
theorem apply_mode_refetches_and_verifies_witness :
    addCandidates [] [dbScen] ≠ [] ∧
    ((synchronize_events witClient [dbScen] [] 2024 false).fetchCalls = [2024] ∧
     (synchronize_events witClient [dbScen] [] 2024 false).stats.verified_adds =
       (addCandidates [] [dbScen]).countP (verifyFlag witClient 2024)) :=
  ⟨by decide, apply_mode_refetches_and_verifies witClient [dbScen] [] 2024 (by decide)⟩

/-- C8: with `dry_run = false`, `add_hours_direct` is invoked exactly once
per addition candidate, in list order (the apply-call trace is exactly the
candidate list — a failed call never removes later candidates), and `added`
counts exactly the candidates for which the call returned `true`. -/
theorem apply_mode_calls_apply_once_per_candidate (client : Client)
    (db_events : List DbEvent) (eb_events : List EbEvent) (year : Int) :
    (synchronize_events client db_events eb_events year false).applyCalls =
      addCandidates eb_events db_events ∧
    (synchronize_events client db_events eb_events year false).stats.added =
      (addCandidates eb_events db_events).countP client.add_hours_direct := by
  by_cases h : addCandidates eb_events db_events = []
  · simp [synchronize_events_eq, h]
  · simp [synchronize_events_eq, h]

/-- C9: `synchronize_events` is a pure function of its inputs, so two runs on
identical, unchanged lists return identical results; and when every database
event with a truthy identifier is matched (by the engine's scan) to a
field-identical remote event, `would_add`, `would_update` and
`conflict_events` are all zero. -/
theorem idempotent_and_zero_on_synced_inputs (client : Client)
    (db_events : List DbEvent) (eb_events : List EbEvent) (year : Int)
    (dry_run : Bool)
    (h : ∀ db_event ∈ db_events, ∀ event_id, truthyId db_event = some event_id →
      ∃ eb_event, findMatch eb_events event_id = some eb_event ∧
        events_differ db_event eb_event = false) :
    synchronize_events client db_events eb_events year dry_run =
      synchronize_events client db_events eb_events year dry_run ∧
    (synchronize_events client db_events eb_events year dry_run).stats.would_add = 0 ∧
    (synchronize_events client db_events eb_events year dry_run).stats.would_update = 0 ∧
    (synchronize_events client db_events eb_events year dry_run).stats.conflict_events = 0 := by
  refine ⟨rfl, ?_, ?_, ?_⟩ <;> simp only [synchronize_events_eq]
  · show db_events.countP (isAddCandidate eb_events) = 0
    rw [List.countP_eq_zero]
    intro db hdb
    cases hid : truthyId db with
    | none => simp [isAddCandidate, hid]
    | some event_id =>
      obtain ⟨eb, hfm, _⟩ := h db hdb event_id hid
      simp [isAddCandidate, hid, hfm]
  · show db_events.countP (updateFlag eb_events) = 0
    rw [List.countP_eq_zero]
    intro db hdb
    cases hid : truthyId db with
    | none => simp [updateFlag, matchedEb, hid]
    | some event_id =>
      obtain ⟨eb, hfm, hnd⟩ := h db hdb event_id hid
      simp [updateFlag, matchedEb, hid, hfm, hnd]
  · show db_events.countP (conflictFlag eb_events) = 0
    rw [List.countP_eq_zero]
    intro db hdb
    cases hid : truthyId db with
    | none => simp [conflictFlag, matchedEb, hid]
    | some event_id =>
      obtain ⟨eb, hfm, hnd⟩ := h db hdb event_id hid
      simp [conflictFlag, matchedEb, hid, hfm, hnd]

/-- Witness for C9: one database event whose matched remote event is
field-identical. -/
theorem idempotent_and_zero_on_synced_inputs_witness :
    (∀ db_event ∈ [dbId], ∀ event_id, truthyId db_event = some event_id →
      ∃ eb_event, findMatch [ebId] event_id = some eb_event ∧
        events_differ db_event eb_event = false) ∧
    ((synchronize_events trivClient [dbId] [ebId] 2024 true).stats.would_add = 0 ∧
     (synchronize_events trivClient [dbId] [ebId] 2024 true).stats.would_update = 0 ∧
     (synchronize_events trivClient [dbId] [ebId] 2024 true).stats.conflict_events = 0) := by
  have hyp : ∀ db_event ∈ [dbId], ∀ event_id, truthyId db_event = some event_id →
      ∃ eb_event, findMatch [ebId] event_id = some eb_event ∧
        events_differ db_event eb_event = false := by
    intro db hdb event_id hid
    simp only [List.mem_singleton] at hdb
    subst hdb
    have h0 : truthyId dbId = some "e1" := by decide
    rw [h0] at hid
    injection hid with h1
    subst h1
    exact ⟨ebId, by decide, by decide⟩
  exact ⟨hyp,
    (idempotent_and_zero_on_synced_inputs trivClient [dbId] [ebId] 2024 true hyp).2⟩

/-- C10: a database event whose `event_id` is missing or empty is skipped
entirely: removing it from the database list changes nothing about the run —
statistics and both external-call traces are identical. -/
theorem falsy_event_id_skipped (client : Client)
    (db_events1 db_events2 : List DbEvent) (bad : DbEvent)
    (eb_events : List EbEvent) (year : Int) (dry_run : Bool)
    (h : truthyId bad = none) :
    synchronize_events client (db_events1 ++ bad :: db_events2) eb_events year dry_run =
      synchronize_events client (db_events1 ++ db_events2) eb_events year dry_run := by
  have h1 : isAddCandidate eb_events bad = false := by simp [isAddCandidate, h]
  have h2 : updateFlag eb_events bad = false := by simp [updateFlag, matchedEb, h]
  have h3 : conflictFlag eb_events bad = false := by simp [conflictFlag, matchedEb, h]
  have h4 : baseContribution eb_events bad = 0 := by simp [baseContribution, matchedEb, h]
  have hcand : addCandidates eb_events (db_events1 ++ bad :: db_events2) =
      addCandidates eb_events (db_events1 ++ db_events2) := by
    simp [addCandidates, List.filter_append, List.filter_cons, h1]
  simp only [synchronize_events_eq, hcand]
  simp [SyncResult.mk.injEq, Stats.mk.injEq, List.countP_append, List.countP_cons,
    h1, h2, h3, h4, List.map_append, List.sum_append]

/-- Witness for C10: dropping a marker-less database event leaves the run
unchanged. -/
theorem falsy_event_id_skipped_witness :
    truthyId dbBad = none ∧
    synchronize_events trivClient ([dbScen] ++ dbBad :: []) [ebScen] 2024 true =
      synchronize_events trivClient ([dbScen] ++ []) [ebScen] 2024 true :=
  ⟨by decide,
   falsy_event_id_skipped trivClient [dbScen] [] dbBad [ebScen] 2024 true (by decide)⟩

end EBoekhoudRobot
